import Mathlib

/-!
Shallow embedding of the control-plane core of the pSurface repository
(src/dlive/entity.py, src/dlive/encoding.py, src/dlive/value.py,
src/dlive/virtual.py) together with proofs about the frozen claims.

Conventions:
* Python ints are Lean `Int` (or `Nat` where the source value is a wire
  byte and thus non-negative).
* Wall-clock timestamps (`time.time()`) are passed explicitly as an `Int`
  parameter `now`; monotonicity of the clock becomes an explicit
  hypothesis where a proof needs it.
* Code that can raise (`IndexError` from `ChannelIdentifier.from_raw_data`,
  range errors from `Encoder.recall_scene`) is embedded in `Except Unit`.
-/

namespace PSurface

/-- Channel banks, from `Bank` in src/dlive/entity.py. -/
inductive Bank where
  | INPUT
  | MONO_GROUP
  | STEREO_GROUP
  | MONO_AUX
  | STEREO_AUX
  | MONO_MATRIX
  | STEREO_MATRIX
  | MONO_FX_SEND
  | STEREO_FX_SEND
  | FX_RETURN
  | MAIN
  | DCA
  | MUTE_GROUP
deriving DecidableEq, Repr

/-- `ChannelIdentifier` from src/dlive/entity.py: a bank plus a canonical
(0-based) index inside that bank. -/
structure ChannelIdentifier where
  bank : Bank
  canonical_index : Nat
deriving DecidableEq, Repr

/-- `_BANK_OFFSET_BY_BANK` lookup derived from `_BANK_MAP`
(src/dlive/entity.py). -/
def bank_offset_by_bank : Bank → Nat
  | .INPUT => 0
  | .MONO_GROUP => 1
  | .STEREO_GROUP => 1
  | .MONO_AUX => 2
  | .STEREO_AUX => 2
  | .MONO_MATRIX => 3
  | .STEREO_MATRIX => 3
  | .MONO_FX_SEND => 4
  | .STEREO_FX_SEND => 4
  | .FX_RETURN => 4
  | .MAIN => 4
  | .DCA => 4
  | .MUTE_GROUP => 4

/-- `_CHANNEL_OFFSET_BY_BANK` lookup derived from `_BANK_MAP`
(src/dlive/entity.py). -/
def channel_offset_by_bank : Bank → Nat
  | .INPUT => 0x00
  | .MONO_GROUP => 0x00
  | .STEREO_GROUP => 0x40
  | .MONO_AUX => 0x00
  | .STEREO_AUX => 0x40
  | .MONO_MATRIX => 0x00
  | .STEREO_MATRIX => 0x40
  | .MONO_FX_SEND => 0x00
  | .STEREO_FX_SEND => 0x10
  | .FX_RETURN => 0x20
  | .MAIN => 0x30
  | .DCA => 0x36
  | .MUTE_GROUP => 0x4E

/-- `ChannelIdentifier.midi_bank_offset` (src/dlive/entity.py). -/
def ChannelIdentifier.midi_bank_offset (c : ChannelIdentifier) : Nat :=
  bank_offset_by_bank c.bank

/-- `ChannelIdentifier.midi_channel_index` (src/dlive/entity.py). -/
def ChannelIdentifier.midi_channel_index (c : ChannelIdentifier) : Nat :=
  channel_offset_by_bank c.bank + c.canonical_index

/-- `ChannelIdentifier.from_raw_data` (src/dlive/entity.py).  The Python
code walks the keys of the matching `_BANK_MAP` row in reverse insertion
order and picks the greatest channel-offset start that is at most
`channel_offset`; an unknown bank offset raises `IndexError`, embedded
here as `Except.error ()`.  Every row contains the start `0x00`, so the
channel-offset `IndexError` in the source is unreachable. -/
def from_raw_data (bank_offset : Int) (channel_offset : Nat) :
    Except Unit ChannelIdentifier :=
  if bank_offset = 0 then
    Except.ok ⟨Bank.INPUT, channel_offset⟩
  else if bank_offset = 1 then
    if 0x40 ≤ channel_offset then Except.ok ⟨Bank.STEREO_GROUP, channel_offset - 0x40⟩
    else Except.ok ⟨Bank.MONO_GROUP, channel_offset⟩
  else if bank_offset = 2 then
    if 0x40 ≤ channel_offset then Except.ok ⟨Bank.STEREO_AUX, channel_offset - 0x40⟩
    else Except.ok ⟨Bank.MONO_AUX, channel_offset⟩
  else if bank_offset = 3 then
    if 0x40 ≤ channel_offset then Except.ok ⟨Bank.STEREO_MATRIX, channel_offset - 0x40⟩
    else Except.ok ⟨Bank.MONO_MATRIX, channel_offset⟩
  else if bank_offset = 4 then
    if 0x4E ≤ channel_offset then Except.ok ⟨Bank.MUTE_GROUP, channel_offset - 0x4E⟩
    else if 0x36 ≤ channel_offset then Except.ok ⟨Bank.DCA, channel_offset - 0x36⟩
    else if 0x30 ≤ channel_offset then Except.ok ⟨Bank.MAIN, channel_offset - 0x30⟩
    else if 0x20 ≤ channel_offset then Except.ok ⟨Bank.FX_RETURN, channel_offset - 0x20⟩
    else if 0x10 ≤ channel_offset then Except.ok ⟨Bank.STEREO_FX_SEND, channel_offset - 0x10⟩
    else Except.ok ⟨Bank.MONO_FX_SEND, channel_offset⟩
  else Except.error ()

/-- Width of the channel-offset segment a bank occupies inside its
`_BANK_MAP` row (distance to the next start, or to 0x80 for the last
segment).  `valid_channel` below uses it to carve out the channels whose
wire encoding decodes back to the same identifier. -/
def segment_width : Bank → Nat
  | .INPUT => 0x80
  | .MONO_GROUP => 0x40
  | .STEREO_GROUP => 0x40
  | .MONO_AUX => 0x40
  | .STEREO_AUX => 0x40
  | .MONO_MATRIX => 0x40
  | .STEREO_MATRIX => 0x40
  | .MONO_FX_SEND => 0x10
  | .STEREO_FX_SEND => 0x10
  | .FX_RETURN => 0x10
  | .MAIN => 0x06
  | .DCA => 0x18
  | .MUTE_GROUP => 0x32

/-- A channel identifier whose canonical index stays inside its bank's
segment of the `_BANK_MAP` row; exactly these channels have an injective
wire encoding (and a channel-offset byte that fits in a MIDI data byte). -/
def valid_channel (c : ChannelIdentifier) : Prop :=
  c.canonical_index < segment_width c.bank

instance (c : ChannelIdentifier) : Decidable (valid_channel c) := by
  unfold valid_channel; infer_instance

/-- `Level.VALUE_OFF` (src/dlive/entity.py). -/
def VALUE_OFF : Int := 0x00

/-- `Level.VALUE_FULL` (src/dlive/entity.py). -/
def VALUE_FULL : Int := 0x7F

/-- `Level.VALUE_0DB` (src/dlive/entity.py). -/
def VALUE_0DB : Int := 0x6B

/-- `Level.__new__` (src/dlive/entity.py): clamp any integer into
[VALUE_OFF, VALUE_FULL] = [0, 127]. -/
def Level.new (value : Int) : Int :=
  max (min VALUE_FULL value) VALUE_OFF

theorem from_raw_data_roundtrip (c : ChannelIdentifier) (h : valid_channel c) :
    from_raw_data (c.midi_bank_offset : Nat) c.midi_channel_index = Except.ok c := by
  obtain ⟨bank, idx⟩ := c
  unfold valid_channel at h
  cases bank <;>
    simp only [segment_width] at h <;>
    simp only [from_raw_data, ChannelIdentifier.midi_bank_offset,
      ChannelIdentifier.midi_channel_index, bank_offset_by_bank,
      channel_offset_by_bank] <;>
    norm_num <;>
    (try split_ifs) <;>
    (try simp only [Except.ok.injEq, ChannelIdentifier.mk.injEq]) <;>
    first
      | exact ⟨rfl, by omega⟩
      | (exfalso; omega)
      | (intro hcontra; exfalso; omega)

/-! ## MIDI transport layer

The decoder in src/dlive/encoding.py consumes `mido` message objects.
The repository hands raw bytes to `mido`, an external library, so the
byte-to-message framing below is modelled from the wire layout given in
the specification (MIDI status bytes `note_on` = 0x9n with two data
bytes, `control_change` = 0xBn with two data bytes, `program_change` =
0xCn with one data byte, running status for repeated status bytes, and
sysex framed by 0xF0 … 0xF7). -/

/-- The message kinds the decoder inspects (`mido` message types). -/
inductive MidiMessage where
  | sysex (data : List Nat)
  | controlChange (channel control value : Nat)
  | noteOn (channel note velocity : Nat)
  | programChange (channel program : Nat)
  | other
deriving DecidableEq, Repr

/-- Split a byte stream at the closing 0xF7 of a sysex: returns the data
bytes before the terminator and the remaining stream after it. -/
def scanSysex : List Nat → List Nat × List Nat
  | [] => ([], [])
  | b :: rest =>
    if b = 0xF7 then ([], rest)
    else
      let s := scanSysex rest
      (b :: s.1, s.2)

/-- Number of data bytes following a status byte of the given kind
(high nibble): program change takes one, the kinds used here otherwise
take two. -/
def argCount (kind : Nat) : Nat :=
  if kind = 0xC then 1 else 2

/-- Build the message for a status kind from its data bytes. -/
def mkMidi (kind channel : Nat) (args : List Nat) : MidiMessage :=
  if kind = 0x9 then MidiMessage.noteOn channel (args.getD 0 0) (args.getD 1 0)
  else if kind = 0xB then MidiMessage.controlChange channel (args.getD 0 0) (args.getD 1 0)
  else if kind = 0xC then MidiMessage.programChange channel (args.getD 0 0)
  else MidiMessage.other

/-- Standard MIDI framing of a byte stream into messages, carrying the
running status (kind, channel) of the last status byte.  The first
argument is structural fuel (one unit per token emitted or byte
skipped); each step consumes at least one byte, so the length of the
stream is always enough fuel. -/
def parseMidiMessages : Nat → List Nat → Option (Nat × Nat) → List MidiMessage
  | 0, _, _ => []
  | _ + 1, [], _ => []
  | fuel + 1, b :: rest, running =>
    if b = 0xF0 then
      let s := scanSysex rest
      MidiMessage.sysex s.1 :: parseMidiMessages fuel s.2 none
    else if 0xF0 < b then
      parseMidiMessages fuel rest running
    else if 0x80 ≤ b then
      let kind := b / 16
      let channel := b % 16
      let n := argCount kind
      mkMidi kind channel (rest.take n) ::
        parseMidiMessages fuel (rest.drop n) (some (kind, channel))
    else
      match running with
      | some (kind, channel) =>
        let n := argCount kind
        mkMidi kind channel ((b :: rest).take n) ::
          parseMidiMessages fuel (rest.drop (n - 1)) (some (kind, channel))
      | none => parseMidiMessages fuel rest none

/-- Frame a raw byte vector into MIDI messages (no running status at the
start of the stream). -/
def parseMidi (l : List Nat) : List MidiMessage :=
  parseMidiMessages l.length l none

/-! ## Decoded messages (`DLiveMessage` hierarchy, src/dlive/encoding.py)

`Scene` and `Label` are value classes of the repository that are not
part of the sources at hand; following the specification a scene is a
plain integer and a label an ASCII string, carried here as its list of
character codes.  `Color` is value-equal to its wire number 0..7
(`Color.YELLOW.value = 3`), carried here as that number.  Levels are the
clamped integers produced by `Level.new`. -/

inductive DLiveMessage where
  | scene (scene : Int)
  | label (channel : ChannelIdentifier) (label : List Nat)
  | color (channel : ChannelIdentifier) (color : Nat)
  | mute (channel : ChannelIdentifier) (mute : Bool)
  | level (channel : ChannelIdentifier) (level : Int)
  | sendLevel (channel : ChannelIdentifier) (toChannel : ChannelIdentifier) (level : Int)
  | unknownSysex (bytes : List Nat) (info : String)
deriving DecidableEq, Repr

/-- `Color.YELLOW.value` (src/dlive/entity.py). -/
def YELLOW : Nat := 0x03

/-- `Protocol.SYSEX_HEADER` (src/dlive/encoding.py). -/
def SYSEX_HEADER : List Nat := [0x00, 0x00, 0x1A, 0x50, 0x10, 0x01, 0x00]

/-- The diagnostic text attached to the quirks-mode `UnknownSysexMessage`
(src/dlive/encoding.py; apostrophes of the source text elided). -/
def quirks_info : String :=
  "Skipping message that could either be color information or a mirrored request for mute."

/-- `Decoder._decode_channel_identifier` (src/dlive/encoding.py):
subtract the configured bank offset `B` before the table lookup. -/
def decode_channel_identifier (B n ch : Nat) : Except Unit ChannelIdentifier :=
  from_raw_data ((n : Int) - (B : Int)) ch

/-- Strip NUL bytes from both ends (Python `str.strip("\00")` on the
decoded ASCII text). -/
def stripNulls (l : List Nat) : List Nat :=
  ((l.dropWhile (· = 0)).reverse.dropWhile (· = 0)).reverse

/-- `Decoder._decode_sysex_data` (src/dlive/encoding.py).  Mirrors the
source faithfully: the channel identifier is computed before the
parameter dispatch, so an invalid bank-offset byte raises (`.error`)
even for payloads that would otherwise fall through to
`UnknownSysexMessage`; an ASCII decode of a byte ≥ 0x80 also raises. -/
def decode_sysex_data (B : Nat) (quirks : Bool) (data : List Nat) :
    Except Unit (Option DLiveMessage) :=
  if data.length < SYSEX_HEADER.length + 4 ∨ data.take 7 ≠ SYSEX_HEADER then
    Except.ok none
  else
    let d := data.drop 7
    do
      let ident ← decode_channel_identifier B (d.getD 0 0) (d.getD 2 0)
      let parameter := d.getD 1 0
      if parameter = 0x02 then
        if (d.drop 3).all (· < 0x80) then
          Except.ok (some (DLiveMessage.label ident (stripNulls (d.drop 3))))
        else Except.error ()
      else if parameter = 0x05 ∧ d.getD 3 0 ≤ 0x07 then
        if quirks then
          Except.ok (some (DLiveMessage.unknownSysex d quirks_info))
        else
          Except.ok (some (DLiveMessage.color ident (d.getD 3 0)))
      else if parameter = 0x0D ∧ 5 ≤ d.length ∧ d.length ≤ 6 then
        let d2 := if d.length = 5 then d.take 3 ++ [B] ++ d.drop 3 else d
        do
          let toIdent ← decode_channel_identifier B (d2.getD 3 0) (d2.getD 4 0)
          Except.ok (some (DLiveMessage.sendLevel ident toIdent (Level.new (d2.getD 5 0))))
      else
        Except.ok (some (DLiveMessage.unknownSysex d ""))

/-- `mido`-style `Message.is_cc(control)`. -/
def isCC (m : MidiMessage) (c : Nat) : Bool :=
  match m with
  | .controlChange _ control _ => control = c
  | _ => false

def isNoteOn : MidiMessage → Bool
  | .noteOn _ _ _ => true
  | _ => false

def isProgramChange : MidiMessage → Bool
  | .programChange _ _ => true
  | _ => false

def ccChannel : MidiMessage → Nat
  | .controlChange channel _ _ => channel
  | _ => 0

def ccValue : MidiMessage → Nat
  | .controlChange _ _ value => value
  | _ => 0

def noteChannel : MidiMessage → Nat
  | .noteOn channel _ _ => channel
  | _ => 0

def noteNote : MidiMessage → Nat
  | .noteOn _ note _ => note
  | _ => 0

def noteVelocity : MidiMessage → Nat
  | .noteOn _ _ velocity => velocity
  | _ => 0

def pcProgram : MidiMessage → Nat
  | .programChange _ program => program
  | _ => 0

/-- The two-message rules of `Decoder._decode` (mute pair and scene
recall); the window `m` is kept (with no decoded message) when no rule
matches. -/
def decode_len2 (B : Nat) (m : List MidiMessage) :
    Except Unit (List MidiMessage × Option DLiveMessage) :=
  match m with
  | m0 :: m1 :: _ =>
    if isNoteOn m1 && (noteVelocity m1 = 0x7F || noteVelocity m1 = 0x3F)
        && isNoteOn m0 && (noteVelocity m0 = 0) then
      (decode_channel_identifier B (noteChannel m1) (noteNote m1)).map
        (fun ident => ([], some (DLiveMessage.mute ident (noteVelocity m1 = 0x7F))))
    else if isCC m1 0x00 && isProgramChange m0 then
      Except.ok ([], some (DLiveMessage.scene (((ccValue m1 <<< 7) + pcProgram m0 : Nat) : Int)))
    else
      Except.ok (m, none)
  | _ => Except.ok (m, none)

/-- `Decoder._decode` (src/dlive/encoding.py) on a window with most
recent message first: a sysex at the head always consumes the window;
then the three-message level rule; then the two-message rules. -/
def decode_window (B : Nat) (quirks : Bool) (m : List MidiMessage) :
    Except Unit (List MidiMessage × Option DLiveMessage) :=
  match m with
  | MidiMessage.sysex d :: _ =>
    (decode_sysex_data B quirks d).map (fun r => ([], r))
  | _ =>
    match m with
    | m0 :: m1 :: m2 :: _ =>
      if isCC m2 0x63 && isCC m1 0x62 && isCC m0 0x06 then
        if ccValue m1 = 0x17 then
          (decode_channel_identifier B (ccChannel m2) (ccValue m2)).map
            (fun ident => ([], some (DLiveMessage.level ident (Level.new (ccValue m0)))))
        else
          Except.ok ([], none)
      else decode_len2 B m
    | _ => decode_len2 B m

/-- `Decoder.feed_and_decode` (src/dlive/encoding.py): push the new
message at the front of the sliding window (capacity `_max_window = 3`)
and run `_decode`. -/
def feed_and_decode (B : Nat) (quirks : Bool) (window : List MidiMessage)
    (msg : MidiMessage) : Except Unit (List MidiMessage × Option DLiveMessage) :=
  decode_window B quirks ((msg :: window).take 3)

/-- Feed a list of MIDI messages through the decoder in order, collecting
every decoded message. -/
def feedAll (B : Nat) (quirks : Bool) (window : List MidiMessage) :
    List MidiMessage → Except Unit (List MidiMessage × List DLiveMessage)
  | [] => Except.ok (window, [])
  | msg :: rest => do
    let r ← feed_and_decode B quirks window msg
    let acc ← feedAll B quirks r.1 rest
    Except.ok (acc.1, (match r.2 with
      | some d => d :: acc.2
      | none => acc.2))

/-! ## Encoder (src/dlive/encoding.py)

`B` is the configured MIDI bank offset (`self._bank_offset`).  Labels
are passed as their list of ASCII codes (`label.encode("ASCII")`). -/

/-- `Encoder.recall_scene`: rejects scenes outside [0, 499]
(`IndexError`, embedded as `.error`), otherwise emits the five-byte
bank-select / program-change pair. -/
def recall_scene (B : Nat) (scene : Int) : Except Unit (List Nat) :=
  if scene < 0 ∨ 499 < scene then Except.error ()
  else
    let n := scene.toNat
    let bank := n >>> 7
    let scene_offset := n - (bank <<< 7)
    Except.ok [0xB0 + B, 0x00, bank, 0xC0 + B, scene_offset]

/-- `Encoder.label`. -/
def encode_label (B : Nat) (channel : ChannelIdentifier) (label : List Nat) : List Nat :=
  [0xF0] ++ SYSEX_HEADER ++
    [B + channel.midi_bank_offset, 0x03, channel.midi_channel_index] ++ label ++ [0xF7]

/-- `Encoder.color`. -/
def encode_color (B : Nat) (channel : ChannelIdentifier) (color : Nat) : List Nat :=
  [0xF0] ++ SYSEX_HEADER ++
    [B + channel.midi_bank_offset, 0x06, channel.midi_channel_index, color, 0xF7]

/-- `Encoder.mute`. -/
def encode_mute (B : Nat) (channel : ChannelIdentifier) (mute : Bool) : List Nat :=
  [0x90 + B + channel.midi_bank_offset, channel.midi_channel_index,
    if mute then 0x7F else 0x3F, channel.midi_channel_index, 0x00]

/-- `Encoder.level`. -/
def encode_level (B : Nat) (channel : ChannelIdentifier) (level : Nat) : List Nat :=
  [0xB0 + B + channel.midi_bank_offset, 0x63, channel.midi_channel_index,
    0x62, 0x17, 0x06, level]

/-- `Encoder.send_level`. -/
def encode_send_level (B : Nat) (from_channel to_channel : ChannelIdentifier)
    (level : Nat) : List Nat :=
  [0xF0] ++ SYSEX_HEADER ++
    [B + from_channel.midi_bank_offset, 0x0D, from_channel.midi_channel_index,
      B + to_channel.midi_bank_offset, to_channel.midi_channel_index, level, 0xF7]

/-! ## TrackedValue (src/dlive/value.py)

The state of one tracked value; the events fired by an operation are
returned explicitly.  The Python class is generic in `T`; Python
truthiness of `T` (used by `resolve`) is passed as the function
`truthy`. -/

structure TrackedValueState (T : Type) where
  value : Option T
  last_resolve : Option Int
  requests : List (T × Int)
deriving DecidableEq, Repr

/-- Events a `TrackedValue` operation can fire. -/
inductive TVEvent (T : Type) where
  | onResolve (value : T) (time : Int)
  | onUpdateIdle (value : T)
deriving DecidableEq, Repr

/-- `TrackedValue.resolve` (src/dlive/value.py).  Returns the new state,
the number of requests remaining, and the events fired (in order).  The
source guards the `on_resolve` notification with the Python truthiness
test `if first_matched_value:` — not with `is not None` — which `truthy`
reproduces.  The enumerate-and-delete loop over the deque is the
first-match search `List.find?` paired with the first-match removal
`List.eraseP`. -/
def resolve {T : Type} [DecidableEq T] (truthy : T → Bool) (now : Int)
    (tv : TrackedValueState T) (value : T) :
    TrackedValueState T × Nat × List (TVEvent T) :=
  let update := tv.value ≠ some value
  let newValue := if update then some value else tv.value
  let matched := tv.requests.find? (fun r => r.1 = value)
  let newRequests := tv.requests.eraseP (fun r => decide (r.1 = value))
  let remaining := newRequests.length
  let events :=
    if update then
      (match matched with
        | some (mv, mt) => if truthy mv then [TVEvent.onResolve mv mt] else []
        | none => []) ++
      (if remaining = 0 then [TVEvent.onUpdateIdle value] else [])
    else []
  (⟨newValue, some now, newRequests⟩, remaining, events)

/-- `TrackedValue.request` (src/dlive/value.py).  Returns the new state,
the reported pending count and the queued flag.  The early returns of
the Python method are flattened into one if-chain: the
queue-empty-and-already-settled case, the refresh case (queue nonempty
with the last request matching), and the append fall-through. -/
def request {T : Type} [DecidableEq T] (now : Int)
    (tv : TrackedValueState T) (value : T) : TrackedValueState T × Nat × Bool :=
  let num_requests := tv.requests.length
  if num_requests = 0 ∧ tv.value = some value then
    (tv, 0, false)
  else if num_requests ≠ 0 ∧ tv.requests.getLast?.map Prod.fst = some value then
    ({ tv with requests := tv.requests.dropLast ++ [(value, now)] }, num_requests, false)
  else
    ({ tv with requests := tv.requests ++ [(value, now)] }, num_requests + 1, true)

/-- `TrackedValue.purge` (src/dlive/value.py).  Keeps exactly the
requests `r` with `r.time - now ≤ max_age` (the comparison as written in
the source) and returns the new state with the number of dropped
requests. -/
def purge {T : Type} (now max_age : Int) (tv : TrackedValueState T) :
    TrackedValueState T × Nat :=
  let before := tv.requests.length
  if before = 0 then (tv, 0)
  else
    let kept := tv.requests.filter (fun r => r.2 - now ≤ max_age)
    ({ tv with requests := kept }, before - kept.length)

/-- `TrackedValue.purge_all` (src/dlive/value.py): sum of `purge` over
all instances. -/
def purge_all {T : Type} (now max_age : Int) (instances : List (TrackedValueState T)) : Nat :=
  (instances.map (fun tv => (purge now max_age tv).2)).sum

/-! ## Layer controller, OUTPUTS mode (src/dlive/virtual.py)

`LayerController._configure_outputs` reads the mix state only through
`DLive.get_label(ch).has_name` and `DLive.get_send_level(ch, out)` (both
with their fall-back defaults), so those two observations form the
environment of the embedding. -/

structure OutputsEnv where
  input_channels : List ChannelIdentifier
  has_name : ChannelIdentifier → Bool
  send_level : ChannelIdentifier → ChannelIdentifier → Int

/-- What `_configure_outputs` does to one virtual strip. -/
inductive StripBinding where
  | bindSend (base toChannel : ChannelIdentifier)
  | tieToZero
  | bindMaster (base : ChannelIdentifier)
deriving DecidableEq, Repr

/-- The `_show_channel` closure inside `_configure_outputs`. -/
def show_channel (env : OutputsEnv) (filtered : Bool)
    (output_channel ch : ChannelIdentifier) : Bool :=
  env.has_name ch && (!filtered || env.send_level ch output_channel ≠ VALUE_OFF)

/-- The binding loop of `_configure_outputs` over the index window:
channels passing `_show_channel` are bound in order; the loop breaks
once `v_index` reaches 15. -/
def bind_loop (env : OutputsEnv) (filtered : Bool) (output_channel : ChannelIdentifier) :
    List Nat → Nat → List ChannelIdentifier
  | [], _ => []
  | index :: rest, v_index =>
    let ch := env.input_channels.getD index ⟨Bank.INPUT, 0⟩
    if show_channel env filtered output_channel ch then
      if v_index + 1 = 15 then [ch]
      else ch :: bind_loop env filtered output_channel rest (v_index + 1)
    else
      if v_index = 15 then []
      else bind_loop env filtered output_channel rest v_index

/-- `LayerController._configure_outputs` (src/dlive/virtual.py): the
resulting configuration of the 16 virtual strips.  `range(channel_from,
channel_to)` of the source is `List.range' channel_from (channel_to -
channel_from)` (the upper bound is exclusive). -/
def configure_outputs (env : OutputsEnv) (bank : Nat) (channel_filter : Bool)
    (output_channel : ChannelIdentifier) : List StripBinding :=
  let max_index := env.input_channels.length - 1
  let channel_from := if channel_filter then 0 else min (bank * 16) max_index
  let channel_to := if channel_filter then max_index else min (channel_from + 14) max_index
  let bound := bind_loop env channel_filter output_channel
    (List.range' channel_from (channel_to - channel_from)) 0
  (bound.map (fun ch => StripBinding.bindSend ch output_channel)) ++
    List.replicate (15 - bound.length) StripBinding.tieToZero ++
    [StripBinding.bindMaster output_channel]

/-! ## Concrete fixtures used by witnesses and counterexamples -/

/-- Input channel `i` of the INPUT bank (`Ip i+1`). -/
def chIn (i : Nat) : ChannelIdentifier := ⟨Bank.INPUT, i⟩

/-- A mix state with 16 input channels, all labelled, all sending at 0 dB
to every output. -/
def env16 : OutputsEnv :=
  { input_channels := (List.range 16).map chIn
    has_name := fun _ => true
    send_level := fun _ _ => VALUE_0DB }

/-- A sample output channel (`Aux 1`). -/
def outEx : ChannelIdentifier := ⟨Bank.MONO_AUX, 0⟩

/-! ## Claim theorems -/

/-- C1: the claim states that `purge(max_age)` drops exactly the
requests older than `max_age` (so `purge(0)`/`purge_all(0)` empty every
queue).  The code filters with `r[1] - now <= max_age`; request
timestamps never exceed `now`, so that comparison always holds and
`purge` never drops anything: this theorem evaluates the embedded code
over every state whose timestamps are in the past. -/
theorem C1_purge_drops_nothing :
    (∀ (T : Type) (tv : TrackedValueState T) (now max_age : Int),
        (∀ r ∈ tv.requests, r.2 ≤ now) → 0 ≤ max_age →
          purge now max_age tv = (tv, 0))
    ∧ (∀ (T : Type) (instances : List (TrackedValueState T)) (now max_age : Int),
        (∀ tv ∈ instances, ∀ r ∈ tv.requests, r.2 ≤ now) → 0 ≤ max_age →
          purge_all now max_age instances = 0) := by
  have key : ∀ (T : Type) (tv : TrackedValueState T) (now max_age : Int),
      (∀ r ∈ tv.requests, r.2 ≤ now) → 0 ≤ max_age →
        purge now max_age tv = (tv, 0) := by
    intro T tv now max_age hmono hage
    unfold purge
    by_cases hempty : tv.requests.length = 0
    · rw [if_pos hempty]
    · rw [if_neg hempty]
      have hfilter : tv.requests.filter (fun r => decide (r.2 - now ≤ max_age)) = tv.requests := by
        apply List.filter_eq_self.mpr
        intro r hr
        have := hmono r hr
        simp only [decide_eq_true_eq]
        omega
      simp only [hfilter]
      simp
  refine ⟨key, ?_⟩
  intro T instances now max_age hmono hage
  unfold purge_all
  have : instances.map (fun tv => (purge now max_age tv).2) = instances.map (fun _ => 0) := by
    apply List.map_congr_left
    intro tv htv
    rw [key T tv now max_age (hmono tv htv) hage]
  rw [this]
  simp

/-- Witness for C1: a five-second-old request survives `purge(0)`
untouched. -/
theorem C1_purge_drops_nothing_witness :
    purge 15 0 (⟨none, none, [((1 : Int), (10 : Int))]⟩ : TrackedValueState Int)
      = (⟨none, none, [(1, 10)]⟩, 0) :=
  C1_purge_drops_nothing.1 Int ⟨none, none, [(1, 10)]⟩ 15 0 (by decide) (by decide)

/-- C3: the claim states that whenever `current` changed, `resolve`
notifies `on_resolve` with the removed matching request whenever one was
removed.  The code guards the notification with the Python truthiness
test `if first_matched_value:`; resolving a falsy value (here `False` on
a `TrackedValue[bool]`, as used for mutes) removes the queued request
and fires `on_update_idle` but silently skips `on_resolve`. -/
theorem C3_resolve_skips_on_resolve :
    resolve (fun b : Bool => b) 5 ⟨none, none, [(false, 3)]⟩ false
      = (⟨some false, some 5, []⟩, 0, [TVEvent.onUpdateIdle false]) := by
  decide

/-- C4: the three-way semantics of `request` plus its two stated
consequences (double request coalesces into a timestamp refresh; the
queue never holds two consecutive requests with the same value). -/
theorem C4_request_semantics :
    (∀ (T : Type) (_ : DecidableEq T) (tv : TrackedValueState T) (v : T) (now : Int),
        tv.requests = [] → tv.value = some v → request now tv v = (tv, 0, false))
    ∧ (∀ (T : Type) (_ : DecidableEq T) (tv : TrackedValueState T) (v : T) (now : Int),
        tv.requests ≠ [] → tv.requests.getLast?.map Prod.fst = some v →
          request now tv v
            = ({ tv with requests := tv.requests.dropLast ++ [(v, now)] },
                tv.requests.length, false))
    ∧ (∀ (T : Type) (_ : DecidableEq T) (tv : TrackedValueState T) (v : T) (now : Int),
        (tv.requests = [] → tv.value ≠ some v) →
        tv.requests.getLast?.map Prod.fst ≠ some v →
          request now tv v
            = ({ tv with requests := tv.requests ++ [(v, now)] },
                tv.requests.length + 1, true))
    ∧ (∀ (T : Type) (_ : DecidableEq T) (v : T) (t1 t2 : Int),
        request t2 (request t1 (⟨none, none, []⟩ : TrackedValueState T) v).1 v
          = (⟨none, none, [(v, t2)]⟩, 1, false))
    ∧ (∀ (T : Type) (_ : DecidableEq T) (tv : TrackedValueState T) (v : T) (now : Int),
        List.Chain' (fun a b : T × Int => a.1 ≠ b.1) tv.requests →
          List.Chain' (fun a b : T × Int => a.1 ≠ b.1) (request now tv v).1.requests) := by
  have part1 : ∀ (T : Type) (_ : DecidableEq T) (tv : TrackedValueState T) (v : T) (now : Int),
      tv.requests = [] → tv.value = some v → request now tv v = (tv, 0, false) := by
    intro T _ tv v now h1 h2
    unfold request
    rw [if_pos ⟨by simp [h1], h2⟩]
  have part2 : ∀ (T : Type) (_ : DecidableEq T) (tv : TrackedValueState T) (v : T) (now : Int),
      tv.requests ≠ [] → tv.requests.getLast?.map Prod.fst = some v →
        request now tv v
          = ({ tv with requests := tv.requests.dropLast ++ [(v, now)] },
              tv.requests.length, false) := by
    intro T _ tv v now h1 h2
    unfold request
    rw [if_neg (by simp [h1]), if_pos ⟨by simp [h1], h2⟩]
  have part3 : ∀ (T : Type) (_ : DecidableEq T) (tv : TrackedValueState T) (v : T) (now : Int),
      (tv.requests = [] → tv.value ≠ some v) →
      tv.requests.getLast?.map Prod.fst ≠ some v →
        request now tv v
          = ({ tv with requests := tv.requests ++ [(v, now)] },
              tv.requests.length + 1, true) := by
    intro T _ tv v now h1 h2
    unfold request
    rw [if_neg, if_neg]
    · rintro ⟨-, hlast⟩
      exact h2 hlast
    · rintro ⟨hlen, hval⟩
      exact h1 (List.length_eq_zero.mp hlen) hval
  refine ⟨part1, part2, part3, ?_, ?_⟩
  · intro T inst v t1 t2
    have step1 : request t1 (⟨none, none, []⟩ : TrackedValueState T) v
        = (⟨none, none, [(v, t1)]⟩, 1, true) := by
      have := part3 T inst ⟨none, none, []⟩ v t1 (by simp) (by simp)
      simpa using this
    rw [step1]
    have := part2 T inst ⟨none, none, [(v, t1)]⟩ v t2 (by simp) (by simp)
    simpa using this
  · intro T inst tv v now hchain
    by_cases h1 : tv.requests = []
    · by_cases h2 : tv.value = some v
      · rw [part1 T inst tv v now h1 h2]
        exact hchain
      · rw [part3 T inst tv v now (fun _ => h2) (by simp [h1])]
        simp [h1]
    · by_cases h2 : tv.requests.getLast?.map Prod.fst = some v
      · rw [part2 T inst tv v now h1 h2]
        obtain ⟨x, hx⟩ : ∃ x, tv.requests.getLast? = some x :=
          Option.ne_none_iff_exists'.mp (by simp [List.getLast?_eq_getLast _ h1])
        have hxv : x.1 = v := by
          rw [hx] at h2
          simpa using h2
        have hdecomp : tv.requests = tv.requests.dropLast ++ [x] := by
          have hdg := List.dropLast_append_getLast h1
          rw [List.getLast?_eq_getLast _ h1] at hx
          rw [Option.some_inj.mp hx] at hdg
          exact hdg.symm
        rw [hdecomp] at hchain
        rw [List.chain'_append] at hchain ⊢
        obtain ⟨hc1, -, hjunction⟩ := hchain
        refine ⟨hc1, by simp, ?_⟩
        intro a ha b hb
        simp only [List.head?_cons, Option.mem_def, Option.some.injEq] at hb
        subst hb
        have := hjunction a ha x (by simp)
        simpa [hxv] using this
      · rw [part3 T inst tv v now (fun h => absurd h h1) h2]
        rw [List.chain'_append]
        refine ⟨hchain, by simp, ?_⟩
        intro a ha b hb
        simp only [List.head?_cons, Option.mem_def, Option.some.injEq] at hb
        subst hb
        intro heq
        apply h2
        have hlast : tv.requests.getLast? = some a := by
          rw [List.getLast?_eq_getLast _ h1]
          have hmem := List.getLast?_eq_getLast tv.requests h1
          rw [hmem] at ha
          simpa using ha
        rw [hlast]
        simp [heq]

/-- Witness for C4: concrete instances of the no-op case and the
coalescing scenario. -/
theorem C4_request_semantics_witness :
    request 9 (⟨some (5 : Int), none, []⟩ : TrackedValueState Int) 5
      = (⟨some 5, none, []⟩, 0, false)
    ∧ request 2 (request 1 (⟨none, none, []⟩ : TrackedValueState Int) 7).1 7
      = (⟨none, none, [(7, 2)]⟩, 1, false) :=
  ⟨C4_request_semantics.1 Int inferInstance ⟨some 5, none, []⟩ 5 9 rfl rfl,
    C4_request_semantics.2.2.2.1 Int inferInstance 7 1 2⟩

/-- C7: `recall_scene` errors exactly on scenes outside [0, 499] and
otherwise emits `B0+B 00 (s >> 7)  C0+B (s & 0x7F)`; with `B = 0`,
scene 100 yields `B0 00 00 C0 64`. -/
theorem C7_recall_scene (B : Nat) (s : Int) :
    (recall_scene B s = Except.error () ↔ (s < 0 ∨ 499 < s))
    ∧ (0 ≤ s → s ≤ 499 →
        recall_scene B s
          = Except.ok [0xB0 + B, 0x00, s.toNat >>> 7, 0xC0 + B, s.toNat &&& 0x7F])
    ∧ recall_scene 0 100 = Except.ok [0xB0, 0x00, 0x00, 0xC0, 0x64] := by
  refine ⟨⟨?_, ?_⟩, ?_, rfl⟩
  · intro h
    by_contra hc
    push_neg at hc
    unfold recall_scene at h
    rw [if_neg (by omega)] at h
    exact Except.noConfusion h
  · intro h
    unfold recall_scene
    rw [if_pos h]
  · intro h0 h1
    unfold recall_scene
    rw [if_neg (by omega)]
    have hmod : s.toNat - ((s.toNat >>> 7) <<< 7) = s.toNat &&& 0x7F := by
      have hand := Nat.and_pow_two_sub_one_eq_mod s.toNat 7
      rw [Nat.shiftRight_eq_div_pow, Nat.shiftLeft_eq]
      norm_num at hand ⊢
      rw [hand]
      omega
    simp only [hmod]

/-- Witness for C7: scene −1 and scene 500 are rejected, scene 100 emits
the documented bytes. -/
theorem C7_recall_scene_witness :
    recall_scene 0 (-1) = Except.error ()
    ∧ recall_scene 0 500 = Except.error ()
    ∧ recall_scene 0 100 = Except.ok [0xB0, 0x00, 0x00, 0xC0, 0x64] :=
  ⟨(C7_recall_scene 0 (-1)).1.mpr (by omega),
    (C7_recall_scene 0 500).1.mpr (by omega),
    (C7_recall_scene 0 100).2.2⟩

/-- C10: `Level.__new__` clamps every integer into [0, 127]: negative
inputs map to 0 (OFF), inputs above 0x7F map to 0x7F (FULL), in-range
inputs are unchanged. -/
theorem C10_level_clamp (v : Int) :
    (0 ≤ Level.new v ∧ Level.new v ≤ 127)
    ∧ (v < 0 → Level.new v = 0)
    ∧ (127 < v → Level.new v = 127)
    ∧ (0 ≤ v → v ≤ 127 → Level.new v = v) := by
  unfold Level.new VALUE_FULL VALUE_OFF
  omega

/-- Witness for C10: the clamp at −5, 200 and 42. -/
theorem C10_level_clamp_witness :
    Level.new (-5) = 0 ∧ Level.new 200 = 127 ∧ Level.new 42 = 42 :=
  ⟨(C10_level_clamp (-5)).2.1 (by omega),
    (C10_level_clamp 200).2.2.1 (by omega),
    (C10_level_clamp 42).2.2.2 (by omega) (by omega)⟩

theorem bind_loop_mem (env : OutputsEnv) (filtered : Bool) (o : ChannelIdentifier) :
    ∀ (idxs : List Nat) (v : Nat) (ch : ChannelIdentifier),
      ch ∈ bind_loop env filtered o idxs v → show_channel env filtered o ch = true := by
  intro idxs
  induction idxs with
  | nil => intro v ch h; simp [bind_loop] at h
  | cons i rest ih =>
    intro v ch h
    unfold bind_loop at h
    by_cases hshow : show_channel env filtered o (env.input_channels.getD i ⟨Bank.INPUT, 0⟩) = true
    · rw [if_pos hshow] at h
      by_cases hv : v + 1 = 15
      · rw [if_pos hv] at h
        rw [List.mem_singleton] at h
        rw [h]
        exact hshow
      · rw [if_neg hv] at h
        rcases List.mem_cons.mp h with h | h
        · rw [h]
          exact hshow
        · exact ih (v + 1) ch h
    · rw [if_neg hshow] at h
      by_cases hv : v = 15
      · rw [if_pos hv] at h
        simp at h
      · rw [if_neg hv] at h
        exact ih v ch h

theorem bind_loop_length (env : OutputsEnv) (filtered : Bool) (o : ChannelIdentifier) :
    ∀ (idxs : List Nat) (v : Nat), v ≤ 14 →
      (bind_loop env filtered o idxs v).length ≤ 15 - v := by
  intro idxs
  induction idxs with
  | nil => intro v hv; simp [bind_loop]
  | cons i rest ih =>
    intro v hv
    unfold bind_loop
    by_cases hshow : show_channel env filtered o (env.input_channels.getD i ⟨Bank.INPUT, 0⟩) = true
    · rw [if_pos hshow]
      by_cases hv15 : v + 1 = 15
      · rw [if_pos hv15]
        simp
        omega
      · rw [if_neg hv15]
        have := ih (v + 1) (by omega)
        simp only [List.length_cons]
        omega
    · rw [if_neg hshow, if_neg (by omega)]
      have := ih v hv
      omega

/-- C8: in OUTPUTS mode with the channel filter on, the strip
configuration is a block of `bindSend` strips followed by tie-to-zero
strips and the master strip, and every bound source channel has a named
label and a non-OFF send level towards the selected output. -/
theorem C8_outputs_filter_no_off (env : OutputsEnv) (bank : Nat) (o : ChannelIdentifier) :
    ∃ bound : List ChannelIdentifier,
      configure_outputs env bank true o
        = (bound.map (fun ch => StripBinding.bindSend ch o))
          ++ List.replicate (15 - bound.length) StripBinding.tieToZero
          ++ [StripBinding.bindMaster o]
      ∧ bound.length ≤ 15
      ∧ ∀ ch ∈ bound, env.has_name ch = true ∧ env.send_level ch o ≠ VALUE_OFF := by
  refine ⟨_, rfl, ?_, ?_⟩
  · have := bind_loop_length env true o
      (List.range' (if true then 0 else min (bank * 16) (env.input_channels.length - 1))
        ((if true then env.input_channels.length - 1
          else min ((if true then 0 else min (bank * 16) (env.input_channels.length - 1)) + 14)
            (env.input_channels.length - 1))
          - (if true then 0 else min (bank * 16) (env.input_channels.length - 1)))) 0 (by omega)
    simpa using this
  · intro ch hch
    have hshow := bind_loop_mem env true o _ _ ch hch
    unfold show_channel at hshow
    simp only [Bool.not_true, Bool.false_or, Bool.and_eq_true, decide_eq_true_eq] at hshow
    exact hshow

/-- Witness for C8: the filtered configuration over the concrete
16-channel mix state. -/
theorem C8_outputs_filter_no_off_witness :
    ∃ bound : List ChannelIdentifier,
      configure_outputs env16 3 true outEx
        = (bound.map (fun ch => StripBinding.bindSend ch outEx))
          ++ List.replicate (15 - bound.length) StripBinding.tieToZero
          ++ [StripBinding.bindMaster outEx]
      ∧ bound.length ≤ 15
      ∧ ∀ ch ∈ bound, env16.has_name ch = true ∧ env16.send_level ch outEx ≠ VALUE_OFF :=
  C8_outputs_filter_no_off env16 3 outEx

/-- C9: the claim states the unfiltered OUTPUTS window holds 15
consecutive channels starting at `bank*16`.  The source iterates
`range(channel_from, channel_to)` with `channel_to = min(channel_from +
14, max_index)` and an exclusive upper bound, so only 14 channels are
ever examined: over a fully-named 16-input mix state with every send
non-OFF, strip 14 stays tied to zero and input channel 14 — inside the
claimed window — is never bound. -/
theorem C9_outputs_window_is_14 :
    configure_outputs env16 0 false outEx
      = ((List.range 14).map (fun i => StripBinding.bindSend (chIn i) outEx))
        ++ [StripBinding.tieToZero, StripBinding.bindMaster outEx]
    ∧ StripBinding.bindSend (chIn 14) outEx ∉ configure_outputs env16 0 false outEx := by
  constructor
  · decide
  · decide

/-! ## Codec lemmas -/

theorem valid_channel_index_le (c : ChannelIdentifier) (h : valid_channel c) :
    c.midi_channel_index ≤ 0x7F := by
  obtain ⟨bank, idx⟩ := c
  unfold valid_channel at h
  cases bank <;>
    simp only [segment_width] at h <;>
    simp only [ChannelIdentifier.midi_channel_index, channel_offset_by_bank] <;>
    omega

theorem valid_channel_bank_le (c : ChannelIdentifier) : c.midi_bank_offset ≤ 4 := by
  obtain ⟨bank, idx⟩ := c
  cases bank <;> simp [ChannelIdentifier.midi_bank_offset, bank_offset_by_bank]

theorem decode_channel_identifier_roundtrip (B : Nat) (c : ChannelIdentifier)
    (h : valid_channel c) :
    decode_channel_identifier B (B + c.midi_bank_offset) c.midi_channel_index
      = Except.ok c := by
  unfold decode_channel_identifier
  have hcast : ((B + c.midi_bank_offset : Nat) : Int) - (B : Int)
      = ((c.midi_bank_offset : Nat) : Int) := by
    push_cast
    ring
  rw [hcast]
  exact from_raw_data_roundtrip c h

theorem scanSysex_no_term (payload rest : List Nat) (h : ∀ b ∈ payload, b ≠ 0xF7) :
    scanSysex (payload ++ 0xF7 :: rest) = (payload, rest) := by
  induction payload with
  | nil => simp [scanSysex]
  | cons b bs ih =>
    have hb : b ≠ 0xF7 := h b (by simp)
    have hbs : ∀ x ∈ bs, x ≠ 0xF7 := fun x hx => h x (by simp [hx])
    simp only [List.cons_append, scanSysex, if_neg hb, List.append_eq, ih hbs]

theorem parseMidiMessages_nil (fuel : Nat) (running : Option (Nat × Nat)) :
    parseMidiMessages fuel [] running = [] := by
  cases fuel <;> rfl

theorem parseMidi_sysex (payload : List Nat) (h : ∀ b ∈ payload, b ≠ 0xF7) :
    parseMidi (0xF0 :: (payload ++ [0xF7])) = [MidiMessage.sysex payload] := by
  unfold parseMidi
  simp only [List.length_cons]
  rw [parseMidiMessages]
  rw [if_pos rfl]
  have : payload ++ [0xF7] = payload ++ 0xF7 :: [] := rfl
  rw [this, scanSysex_no_term payload [] h]
  show MidiMessage.sysex payload :: parseMidiMessages _ [] none = [MidiMessage.sysex payload]
  rw [parseMidiMessages_nil]

theorem parseMidi_mute_bytes (n co vel : Nat) (hn : n ≤ 0xF) (hco : co ≤ 0x7F) :
    parseMidi [0x90 + n, co, vel, co, 0x00]
      = [MidiMessage.noteOn n co vel, MidiMessage.noteOn n co 0] := by
  unfold parseMidi
  simp only [List.length_cons, List.length_nil]
  rw [parseMidiMessages]
  rw [if_neg (by omega), if_neg (by omega), if_pos (by omega)]
  have hk : (0x90 + n) / 16 = 0x9 := by omega
  have hc : (0x90 + n) % 16 = n := by omega
  simp only [hk, hc, argCount, mkMidi]
  norm_num
  rw [parseMidiMessages]
  rw [if_neg (by omega), if_neg (by omega), if_neg (by omega)]
  simp only [argCount, mkMidi]
  norm_num
  rw [parseMidiMessages_nil]

theorem parseMidi_level_bytes (n co lvl : Nat) (hn : n ≤ 0xF) :
    parseMidi [0xB0 + n, 0x63, co, 0x62, 0x17, 0x06, lvl]
      = [MidiMessage.controlChange n 0x63 co,
          MidiMessage.controlChange n 0x62 0x17,
          MidiMessage.controlChange n 0x06 lvl] := by
  unfold parseMidi
  simp only [List.length_cons, List.length_nil]
  rw [parseMidiMessages]
  rw [if_neg (by omega), if_neg (by omega), if_pos (by omega)]
  have hk : (0xB0 + n) / 16 = 0xB := by omega
  have hc : (0xB0 + n) % 16 = n := by omega
  simp only [hk, hc, argCount, mkMidi]
  norm_num
  rw [parseMidiMessages]
  rw [if_neg (by omega), if_neg (by omega), if_neg (by omega)]
  simp only [argCount, mkMidi]
  norm_num
  rw [parseMidiMessages]
  rw [if_neg (by omega), if_neg (by omega), if_neg (by omega)]
  simp only [argCount, mkMidi]
  norm_num
  rw [parseMidiMessages_nil]

theorem parseMidi_scene_bytes (B bank off : Nat) (hB : B ≤ 0xF) :
    parseMidi [0xB0 + B, 0x00, bank, 0xC0 + B, off]
      = [MidiMessage.controlChange B 0x00 bank, MidiMessage.programChange B off] := by
  unfold parseMidi
  simp only [List.length_cons, List.length_nil]
  rw [parseMidiMessages]
  rw [if_neg (by omega), if_neg (by omega), if_pos (by omega)]
  have hk : (0xB0 + B) / 16 = 0xB := by omega
  have hc : (0xB0 + B) % 16 = B := by omega
  simp only [hk, hc, argCount, mkMidi]
  norm_num
  rw [parseMidiMessages]
  rw [if_neg (by omega), if_neg (by omega), if_pos (by omega)]
  have hk2 : (0xC0 + B) / 16 = 0xC := by omega
  have hc2 : (0xC0 + B) % 16 = B := by omega
  simp only [hk2, hc2, argCount, mkMidi]
  norm_num
  rw [parseMidiMessages_nil]

theorem except_bind_ok {ε α β : Type} (a : α) (f : α → Except ε β) :
    (Except.ok a : Except ε α) >>= f = f a := rfl

theorem except_bind_error {ε α β : Type} (e : ε) (f : α → Except ε β) :
    (Except.error e : Except ε α) >>= f = Except.error e := rfl

theorem level_new_coe (lvl : Nat) (h : lvl ≤ 0x7F) : Level.new (lvl : Int) = (lvl : Int) := by
  unfold Level.new VALUE_FULL VALUE_OFF
  omega

theorem from_raw_data_ok (bo : Int) (h0 : 0 ≤ bo) (h4 : bo ≤ 4) (co : Nat) :
    ∃ c, from_raw_data bo co = Except.ok c := by
  have hcases : bo = 0 ∨ bo = 1 ∨ bo = 2 ∨ bo = 3 ∨ bo = 4 := by omega
  rcases hcases with h | h | h | h | h <;>
    subst h <;>
    unfold from_raw_data <;>
    norm_num <;>
    split_ifs <;>
    exact ⟨_, rfl⟩

set_option maxHeartbeats 1000000 in
theorem decode_sysex_send (B : Nat) (q : Bool) (cf ct : ChannelIdentifier) (lvl : Nat)
    (hf : valid_channel cf) (ht : valid_channel ct) (hlvl : lvl ≤ 0x7F) :
    decode_sysex_data B q (SYSEX_HEADER ++
        [B + cf.midi_bank_offset, 0x0D, cf.midi_channel_index,
          B + ct.midi_bank_offset, ct.midi_channel_index, lvl])
      = Except.ok (some (DLiveMessage.sendLevel cf ct (lvl : Int))) := by
  have h1 := decode_channel_identifier_roundtrip B cf hf
  have h2 := decode_channel_identifier_roundtrip B ct ht
  show (decode_channel_identifier B (B + cf.midi_bank_offset) cf.midi_channel_index >>=
      fun ident =>
        decode_channel_identifier B (B + ct.midi_bank_offset) ct.midi_channel_index >>=
          fun toIdent =>
            Except.ok (some (DLiveMessage.sendLevel ident toIdent (Level.new (lvl : Int)))))
    = Except.ok (some (DLiveMessage.sendLevel cf ct (lvl : Int)))
  rw [h1, except_bind_ok, h2, except_bind_ok, level_new_coe lvl hlvl]

theorem decode_sysex_color_unknown (B : Nat) (q : Bool) (c : ChannelIdentifier) (col : Nat)
    (hc : valid_channel c) :
    decode_sysex_data B q (SYSEX_HEADER ++
        [B + c.midi_bank_offset, 0x06, c.midi_channel_index, col])
      = Except.ok (some (DLiveMessage.unknownSysex
          [B + c.midi_bank_offset, 0x06, c.midi_channel_index, col] "")) := by
  have h1 := decode_channel_identifier_roundtrip B c hc
  show (decode_channel_identifier B (B + c.midi_bank_offset) c.midi_channel_index >>=
      fun ident =>
        Except.ok (some (DLiveMessage.unknownSysex
          [B + c.midi_bank_offset, 0x06, c.midi_channel_index, col] "")))
    = Except.ok (some (DLiveMessage.unknownSysex
        [B + c.midi_bank_offset, 0x06, c.midi_channel_index, col] ""))
  rw [h1, except_bind_ok]

set_option maxHeartbeats 1000000 in
theorem decode_sysex_label_unknown (B : Nat) (q : Bool) (c : ChannelIdentifier)
    (label : List Nat) (hc : valid_channel c) (hne : label ≠ []) :
    decode_sysex_data B q (SYSEX_HEADER ++
        ((B + c.midi_bank_offset) :: 0x03 :: c.midi_channel_index :: label))
      = Except.ok (some (DLiveMessage.unknownSysex
          ((B + c.midi_bank_offset) :: 0x03 :: c.midi_channel_index :: label) "")) := by
  have h1 := decode_channel_identifier_roundtrip B c hc
  have hlen : 0 < label.length := List.length_pos.mpr hne
  unfold decode_sysex_data
  rw [if_neg (by
    push_neg
    refine ⟨by simp [SYSEX_HEADER]; omega, by simp [SYSEX_HEADER]⟩)]
  show (decode_channel_identifier B (B + c.midi_bank_offset) c.midi_channel_index >>=
      fun ident =>
        Except.ok (some (DLiveMessage.unknownSysex
          ((B + c.midi_bank_offset) :: 0x03 :: c.midi_channel_index :: label) "")))
    = Except.ok (some (DLiveMessage.unknownSysex
        ((B + c.midi_bank_offset) :: 0x03 :: c.midi_channel_index :: label) ""))
  rw [h1, except_bind_ok]

theorem feedAll_one_sysex (B : Nat) (q : Bool) (d : List Nat) (x : DLiveMessage)
    (h : decode_sysex_data B q d = Except.ok (some x)) :
    feedAll B q [] [MidiMessage.sysex d] = Except.ok ([], [x]) := by
  show (decode_sysex_data B q d).map (fun r => (([] : List MidiMessage), r)) >>=
      (fun r => feedAll B q r.1 [] >>= fun acc =>
        Except.ok (acc.1, match r.2 with
          | some d => d :: acc.2
          | none => acc.2))
    = Except.ok ([], [x])
  rw [h]
  rfl

theorem feedAll_mute_pair (B : Nat) (q : Bool) (n co vel : Nat) (c : ChannelIdentifier)
    (h1 : decode_channel_identifier B n co = Except.ok c)
    (hvel : vel = 0x7F ∨ vel = 0x3F) :
    feedAll B q [] [MidiMessage.noteOn n co vel, MidiMessage.noteOn n co 0]
      = Except.ok ([], [DLiveMessage.mute c (vel = 0x7F)]) := by
  rcases hvel with h | h <;>
    subst h <;>
    simp [feedAll, feed_and_decode, decode_window, decode_len2, isCC, isNoteOn,
      noteVelocity, noteChannel, noteNote, isProgramChange, h1, Except.map,
      except_bind_ok]

theorem feedAll_level_triple (B : Nat) (q : Bool) (n co lvl : Nat) (c : ChannelIdentifier)
    (h1 : decode_channel_identifier B n co = Except.ok c) :
    feedAll B q [] [MidiMessage.controlChange n 0x63 co,
        MidiMessage.controlChange n 0x62 0x17, MidiMessage.controlChange n 0x06 lvl]
      = Except.ok ([], [DLiveMessage.level c (Level.new (lvl : Int))]) := by
  simp [feedAll, feed_and_decode, decode_window, decode_len2, isCC, isNoteOn,
    noteVelocity, ccChannel, ccValue, isProgramChange, h1, Except.map,
    except_bind_ok]

theorem feedAll_scene_pair (B : Nat) (q : Bool) (n1 n2 bank off : Nat) :
    feedAll B q [] [MidiMessage.controlChange n1 0x00 bank,
        MidiMessage.programChange n2 off]
      = Except.ok ([], [DLiveMessage.scene (((bank <<< 7) + off : Nat) : Int)]) := by
  simp [feedAll, feed_and_decode, decode_window, decode_len2, isCC, isNoteOn,
    noteVelocity, ccValue, pcProgram, isProgramChange, Except.map, except_bind_ok]

theorem bind_sendLevel_ne_color (e : Except Unit ChannelIdentifier)
    (a : ChannelIdentifier) (l : Int) (c : ChannelIdentifier) (col : Nat) :
    (e >>= fun toIdent => Except.ok (some (DLiveMessage.sendLevel a toIdent l)))
      ≠ Except.ok (some (DLiveMessage.color c col)) := by
  cases e <;> simp [except_bind_ok, except_bind_error]

/-- C2 (amended): feeding an encoder's byte vector back through the
decoder reproduces the logical message for Mute, Level, SendLevel and
Scene — quantified over every wire-valid channel, every level in
[0, 127], every scene in [0, 499] and every configured bank offset that
keeps the status nibble legal — while the Colour and Label byte vectors
decode to `UnknownSysexMessage`: the encoders emit the set-parameters
0x06 and 0x03, which the decoder does not recognise (it decodes colour
reports 0x05 and label reports 0x02). -/
theorem C2_round_trip :
    (∀ (B : Nat) (c : ChannelIdentifier) (m : Bool), valid_channel c → B ≤ 0xB →
        feedAll B false [] (parseMidi (encode_mute B c m))
          = Except.ok ([], [DLiveMessage.mute c m]))
    ∧ (∀ (B : Nat) (c : ChannelIdentifier) (lvl : Nat),
        valid_channel c → B ≤ 0xB → lvl ≤ 0x7F →
        feedAll B false [] (parseMidi (encode_level B c lvl))
          = Except.ok ([], [DLiveMessage.level c (lvl : Int)]))
    ∧ (∀ (B : Nat) (cf ct : ChannelIdentifier) (lvl : Nat),
        valid_channel cf → valid_channel ct → B ≤ 0xB → lvl ≤ 0x7F →
        feedAll B false [] (parseMidi (encode_send_level B cf ct lvl))
          = Except.ok ([], [DLiveMessage.sendLevel cf ct (lvl : Int)]))
    ∧ (∀ (B : Nat) (s : Int), B ≤ 0xF → 0 ≤ s → s ≤ 499 →
        ∃ bytes, recall_scene B s = Except.ok bytes ∧
          feedAll B false [] (parseMidi bytes)
            = Except.ok ([], [DLiveMessage.scene s]))
    ∧ (∀ (B : Nat) (c : ChannelIdentifier) (col : Nat),
        valid_channel c → B ≤ 0xB → col ≤ 0x07 →
        feedAll B false [] (parseMidi (encode_color B c col))
          = Except.ok ([], [DLiveMessage.unknownSysex
              [B + c.midi_bank_offset, 0x06, c.midi_channel_index, col] ""]))
    ∧ (∀ (B : Nat) (c : ChannelIdentifier) (label : List Nat),
        valid_channel c → B ≤ 0xB → label ≠ [] → (∀ b ∈ label, b ≤ 0x7F) →
        feedAll B false [] (parseMidi (encode_label B c label))
          = Except.ok ([], [DLiveMessage.unknownSysex
              ((B + c.midi_bank_offset) :: 0x03 :: c.midi_channel_index :: label) ""])) := by
  refine ⟨?_, ?_, ?_, ?_, ?_, ?_⟩
  · intro B c m hc hB
    have hco := valid_channel_index_le c hc
    have hbo := valid_channel_bank_le c
    have hassoc : 0x90 + B + c.midi_bank_offset = 0x90 + (B + c.midi_bank_offset) := by omega
    have hparse := parseMidi_mute_bytes (B + c.midi_bank_offset) c.midi_channel_index
      (if m then 0x7F else 0x3F) (by omega) hco
    have hfeed := feedAll_mute_pair B false (B + c.midi_bank_offset) c.midi_channel_index
      (if m then 0x7F else 0x3F) c (decode_channel_identifier_roundtrip B c hc)
      (by cases m <;> simp)
    unfold encode_mute
    rw [hassoc, hparse, hfeed]
    cases m <;> simp
  · intro B c lvl hc hB hlvl
    have hbo := valid_channel_bank_le c
    have hassoc : 0xB0 + B + c.midi_bank_offset = 0xB0 + (B + c.midi_bank_offset) := by omega
    have hparse := parseMidi_level_bytes (B + c.midi_bank_offset) c.midi_channel_index lvl
      (by omega)
    have hfeed := feedAll_level_triple B false (B + c.midi_bank_offset)
      c.midi_channel_index lvl c (decode_channel_identifier_roundtrip B c hc)
    unfold encode_level
    rw [hassoc, hparse, hfeed, level_new_coe lvl hlvl]
  · intro B cf ct lvl hf ht hB hlvl
    have hbo1 := valid_channel_bank_le cf
    have hbo2 := valid_channel_bank_le ct
    have hco1 := valid_channel_index_le cf hf
    have hco2 := valid_channel_index_le ct ht
    have hbytes : ∀ b ∈ SYSEX_HEADER ++
        [B + cf.midi_bank_offset, 0x0D, cf.midi_channel_index,
          B + ct.midi_bank_offset, ct.midi_channel_index, lvl], b ≠ 0xF7 := by
      intro b hb
      rcases List.mem_append.mp hb with h | h
      · fin_cases h <;> decide
      · simp only [List.mem_cons, List.not_mem_nil, or_false] at h
        rcases h with h | h | h | h | h | h <;> omega
    have heq : encode_send_level B cf ct lvl
        = 0xF0 :: ((SYSEX_HEADER ++
            [B + cf.midi_bank_offset, 0x0D, cf.midi_channel_index,
              B + ct.midi_bank_offset, ct.midi_channel_index, lvl]) ++ [0xF7]) := by
      simp [encode_send_level, SYSEX_HEADER]
    rw [heq, parseMidi_sysex _ hbytes,
      feedAll_one_sysex B false _ _ (decode_sysex_send B false cf ct lvl hf ht hlvl)]
  · intro B s hB h0 h1
    have henc : recall_scene B s = Except.ok [0xB0 + B, 0x00, s.toNat >>> 7,
        0xC0 + B, s.toNat - ((s.toNat >>> 7) <<< 7)] := by
      unfold recall_scene
      rw [if_neg (by omega)]
    refine ⟨_, henc, ?_⟩
    rw [parseMidi_scene_bytes B (s.toNat >>> 7) (s.toNat - ((s.toNat >>> 7) <<< 7)) hB]
    rw [feedAll_scene_pair B false B B (s.toNat >>> 7) (s.toNat - ((s.toNat >>> 7) <<< 7))]
    have harith : ((s.toNat >>> 7) <<< 7) + (s.toNat - ((s.toNat >>> 7) <<< 7)) = s.toNat := by
      rw [Nat.shiftRight_eq_div_pow, Nat.shiftLeft_eq]
      have := Nat.div_mul_le_self s.toNat (2 ^ 7)
      omega
    rw [harith, Int.toNat_of_nonneg h0]
  · intro B c col hc hB hcol
    have hbo := valid_channel_bank_le c
    have hco := valid_channel_index_le c hc
    have hbytes : ∀ b ∈ SYSEX_HEADER ++
        [B + c.midi_bank_offset, 0x06, c.midi_channel_index, col], b ≠ 0xF7 := by
      intro b hb
      rcases List.mem_append.mp hb with h | h
      · fin_cases h <;> decide
      · simp only [List.mem_cons, List.not_mem_nil, or_false] at h
        rcases h with h | h | h | h <;> omega
    have heq : encode_color B c col
        = 0xF0 :: ((SYSEX_HEADER ++
            [B + c.midi_bank_offset, 0x06, c.midi_channel_index, col]) ++ [0xF7]) := by
      simp [encode_color, SYSEX_HEADER]
    rw [heq, parseMidi_sysex _ hbytes,
      feedAll_one_sysex B false _ _ (decode_sysex_color_unknown B false c col hc)]
  · intro B c label hc hB hne hlab
    have hbo := valid_channel_bank_le c
    have hco := valid_channel_index_le c hc
    have hbytes : ∀ b ∈ SYSEX_HEADER ++
        ((B + c.midi_bank_offset) :: 0x03 :: c.midi_channel_index :: label), b ≠ 0xF7 := by
      intro b hb
      rcases List.mem_append.mp hb with h | h
      · fin_cases h <;> decide
      · simp only [List.mem_cons] at h
        rcases h with h | h | h | h
        · omega
        · omega
        · omega
        · have := hlab b h
          omega
    have heq : encode_label B c label
        = 0xF0 :: ((SYSEX_HEADER ++
            ((B + c.midi_bank_offset) :: 0x03 :: c.midi_channel_index :: label)) ++ [0xF7]) := by
      simp [encode_label, SYSEX_HEADER]
    rw [heq, parseMidi_sysex _ hbytes,
      feedAll_one_sysex B false _ _ (decode_sysex_label_unknown B false c label hc hne)]

/-- Witness for C2: the mute and scene round trips at concrete inputs. -/
theorem C2_round_trip_witness :
    feedAll 0 false [] (parseMidi (encode_mute 0 (chIn 0) true))
      = Except.ok ([], [DLiveMessage.mute (chIn 0) true])
    ∧ ∃ bytes, recall_scene 0 100 = Except.ok bytes ∧
        feedAll 0 false [] (parseMidi bytes)
          = Except.ok ([], [DLiveMessage.scene 100]) :=
  ⟨C2_round_trip.1 0 (chIn 0) true (by decide) (by omega),
    C2_round_trip.2.2.2.1 0 100 (by omega) (by omega) (by omega)⟩

/-- Counterexample for C2 as stated: with `B = 0`, encoding
`Colour(INPUT#9, YELLOW)` and feeding the bytes back does not decode to
that Colour message (it yields `UnknownSysexMessage`, because the
encoder emits set-parameter 0x06 while the decoder parses 0x05). -/
theorem C2_round_trip_counterexample :
    feedAll 0 false [] (parseMidi (encode_color 0 (chIn 9) YELLOW))
      ≠ Except.ok ([], [DLiveMessage.color (chIn 9) YELLOW]) := by
  intro h
  rw [show feedAll 0 false [] (parseMidi (encode_color 0 (chIn 9) YELLOW))
      = Except.ok ([], [DLiveMessage.unknownSysex [0x00, 0x06, 0x09, YELLOW] ""]) from rfl] at h
  simp at h

/-- Counterexample for C5 as stated: with quirks mode on, a sysex whose
parameter byte is 0x05 with `d[3] ≤ 0x07` but whose bank-offset byte
`d[0] = 0x05` is invalid raises `IndexError` (the identifier is computed
before the parameter dispatch), so it does not decode to
`UnknownSysexMessage`. -/
theorem C5_counterexample :
    decode_sysex_data 0 true
        [0x00, 0x00, 0x1A, 0x50, 0x10, 0x01, 0x00, 0x05, 0x05, 0x09, 0x00]
      = Except.error () := rfl

/-- C5 (amended): with quirks mode on no decode ever yields a Colour
message; every quirks-mode sysex with a valid bank-offset byte,
parameter 0x05 and `d[3] ≤ 0x07` decodes to `UnknownSysexMessage` with
the diagnostic reason; and with quirks mode off the bytes
`F0 HDR 00 05 09 03 F7` decode to `Colour(INPUT#9, YELLOW)`. -/
theorem C5_quirks_mode :
    (∀ (B : Nat) (quirks : Bool) (data : List Nat) (c : ChannelIdentifier) (col : Nat),
        quirks = true →
        decode_sysex_data B quirks data ≠ Except.ok (some (DLiveMessage.color c col)))
    ∧ (∀ (B x0 x2 x3 : Nat) (rest : List Nat), x3 ≤ 0x07 → B ≤ x0 → x0 ≤ B + 4 →
        decode_sysex_data B true (SYSEX_HEADER ++ (x0 :: 0x05 :: x2 :: x3 :: rest))
          = Except.ok (some (DLiveMessage.unknownSysex (x0 :: 0x05 :: x2 :: x3 :: rest)
              quirks_info)))
    ∧ decode_sysex_data 0 false
          [0x00, 0x00, 0x1A, 0x50, 0x10, 0x01, 0x00, 0x00, 0x05, 0x09, 0x03]
        = Except.ok (some (DLiveMessage.color (chIn 9) YELLOW)) := by
  refine ⟨?_, ?_, rfl⟩
  · intro B quirks data c col hq
    subst hq
    simp only [decode_sysex_data]
    split
    · simp
    · cases hident : decode_channel_identifier B ((data.drop 7).getD 0 0)
        ((data.drop 7).getD 2 0) with
      | error e => simp [except_bind_error]
      | ok ident =>
        rw [except_bind_ok]
        split_ifs <;>
          first
            | exact bind_sendLevel_ne_color _ _ _ _ _
            | simp
  · intro B x0 x2 x3 rest h3 hlo hhi
    obtain ⟨ident, hident⟩ := from_raw_data_ok ((x0 : Int) - (B : Int))
      (by omega) (by omega) x2
    have hident' : decode_channel_identifier B x0 x2 = Except.ok ident := by
      unfold decode_channel_identifier
      exact hident
    unfold decode_sysex_data
    rw [if_neg (by
      push_neg
      refine ⟨by simp [SYSEX_HEADER], by simp [SYSEX_HEADER]⟩)]
    have e0 : ((SYSEX_HEADER ++ (x0 :: 0x05 :: x2 :: x3 :: rest)).drop 7)
        = x0 :: 0x05 :: x2 :: x3 :: rest := rfl
    simp only [e0]
    have e1 : (x0 :: 0x05 :: x2 :: x3 :: rest).getD 0 0 = x0 := rfl
    have e2 : (x0 :: 0x05 :: x2 :: x3 :: rest).getD 1 0 = 0x05 := rfl
    have e3 : (x0 :: 0x05 :: x2 :: x3 :: rest).getD 2 0 = x2 := rfl
    have e4 : (x0 :: 0x05 :: x2 :: x3 :: rest).getD 3 0 = x3 := rfl
    simp only [e1, e2, e3, e4]
    rw [hident', except_bind_ok]
    rw [if_neg (by norm_num), if_pos ⟨by trivial, h3⟩]
    rfl

/-- Witness for C5: the amended quirks-mode statement at concrete
inputs — the example bytes with quirks on decode to the diagnostic
`UnknownSysexMessage`, never to a Colour message. -/
theorem C5_quirks_mode_witness :
    decode_sysex_data 0 true
        [0x00, 0x00, 0x1A, 0x50, 0x10, 0x01, 0x00, 0x00, 0x05, 0x09, 0x03]
      = Except.ok (some (DLiveMessage.unknownSysex [0x00, 0x05, 0x09, 0x03] quirks_info))
    ∧ decode_sysex_data 0 true
        [0x00, 0x00, 0x1A, 0x50, 0x10, 0x01, 0x00, 0x00, 0x05, 0x09, 0x03]
      ≠ Except.ok (some (DLiveMessage.color (chIn 9) YELLOW)) :=
  ⟨C5_quirks_mode.2.1 0 0x00 0x09 0x03 [] (by omega) (by omega) (by omega),
    C5_quirks_mode.1 0 true _ (chIn 9) YELLOW rfl⟩

/-- C6: a 5-byte-payload `0x0D` sysex decodes exactly like the 6-byte
long form obtained by inserting the configured bank offset at payload
position 3; with `B = 0`, `F0 HDR 00 0D 00 00 00 6B F7` decodes to
`SendLevel{from = INPUT#0, to = INPUT#0, level = 0x6B}`. -/
theorem C6_send_level_short_form (B : Nat) (q : Bool) (x0 x2 x3 x4 : Nat) :
    decode_sysex_data B q (SYSEX_HEADER ++ [x0, 0x0D, x2, x3, x4])
      = decode_sysex_data B q (SYSEX_HEADER ++ [x0, 0x0D, x2, B, x3, x4])
    ∧ decode_sysex_data 0 q (SYSEX_HEADER ++ [0x00, 0x0D, 0x00, 0x00, 0x6B])
      = Except.ok (some (DLiveMessage.sendLevel (chIn 0) (chIn 0) VALUE_0DB)) := by
  constructor
  · rfl
  · cases q <;> rfl

end PSurface
